import Mathlib

/-!
Verification of the GreenInvest-Analytics ESG scoring engine (src/app.py).

The numeric model uses exact rationals (ℚ) in place of Python floats: every
formula in the scoring core is a composition of `+ - * / max`, which is exact
in ℚ, so equalities stated "within floating-point tolerance" are proved as
exact equalities of rationals.
-/

/-- Environmental raw metrics, the `env_data` dict of `calculate_esg_score`. -/
structure EnvData where
  energy : ℚ
  water : ℚ
  waste : ℚ
  recycling : ℚ
deriving DecidableEq

/-- Social raw metrics, the `social_data` dict of `calculate_esg_score`. -/
structure SocialData where
  turnover : ℚ
  incidents : ℚ
  diversity : ℚ
deriving DecidableEq

/-- Governance raw metrics, the `gov_data` dict of `calculate_esg_score`. -/
structure GovData where
  independence : ℚ
  ethics : ℚ
deriving DecidableEq

/-- The constant `weights['E']` in `calculate_esg_score`. -/
def weights_E : ℚ := 0.4

/-- The constant `weights['S']` in `calculate_esg_score`. -/
def weights_S : ℚ := 0.3

/-- The constant `weights['G']` in `calculate_esg_score`. -/
def weights_G : ℚ := 0.3

/-- The function `calculate_esg_score(env_data, social_data, gov_data)` from src/app.py:
returns `(final_score, e_score, s_score, g_score)`. -/
def calculate_esg_score (env_data : EnvData) (social_data : SocialData)
    (gov_data : GovData) : ℚ × ℚ × ℚ × ℚ :=
  let e_score := (max 0 (100 - env_data.energy / 1000) +
    max 0 (100 - env_data.water / 500) +
    max 0 (100 - env_data.waste / 100) + env_data.recycling) / 4
  let s_score := (max 0 (100 - social_data.turnover * 2) +
    max 0 (100 - social_data.incidents * 10) + social_data.diversity) / 3
  let g_score := (gov_data.independence + gov_data.ethics) / 2
  let final_score := e_score * weights_E + s_score * weights_S + g_score * weights_G
  (final_score, e_score, s_score, g_score)

/-- The energy sub-indicator `max(0, 100 - energy/1000)`. -/
def energy_score (energy : ℚ) : ℚ := max 0 (100 - energy / 1000)

/-- The water sub-indicator `max(0, 100 - water/500)`. -/
def water_score (water : ℚ) : ℚ := max 0 (100 - water / 500)

/-- The waste sub-indicator `max(0, 100 - waste/100)`. -/
def waste_score (waste : ℚ) : ℚ := max 0 (100 - waste / 100)

/-- The recycling sub-indicator: pass-through of `recycling`. -/
def recycling_score (recycling : ℚ) : ℚ := recycling

/-- The turnover sub-indicator `max(0, 100 - turnover*2)`. -/
def turnover_score (turnover : ℚ) : ℚ := max 0 (100 - turnover * 2)

/-- The incident sub-indicator `max(0, 100 - incidents*10)`. -/
def incident_score (incidents : ℚ) : ℚ := max 0 (100 - incidents * 10)

/-- The diversity sub-indicator: pass-through of `diversity`. -/
def diversity_score (diversity : ℚ) : ℚ := diversity

/-- The independence sub-indicator: pass-through of `independence`. -/
def independence_score (independence : ℚ) : ℚ := independence

/-- The ethics sub-indicator: pass-through of `ethics`. -/
def ethics_score (ethics : ℚ) : ℚ := ethics

/-- C1: for every environmental, social and governance input, the overall
score returned by `calculate_esg_score` equals `0.4*e + 0.3*s + 0.3*g`
where `e, s, g` are the category scores it returns; in the exact rational
model the equality is exact, hence within any tolerance. -/
theorem C1_overall_is_weighted_sum (env_data : EnvData) (social_data : SocialData)
    (gov_data : GovData) :
    (calculate_esg_score env_data social_data gov_data).1 =
      0.4 * (calculate_esg_score env_data social_data gov_data).2.1 +
      0.3 * (calculate_esg_score env_data social_data gov_data).2.2.1 +
      0.3 * (calculate_esg_score env_data social_data gov_data).2.2.2 := by
  simp only [calculate_esg_score, weights_E, weights_S, weights_G]
  ring

/-- C2: the environmental category score is the arithmetic mean of the four
environmental indicators, the social score the mean of its three indicators,
and the governance score the mean of the two pass-through indicators. -/
theorem C2_category_means (env_data : EnvData) (social_data : SocialData)
    (gov_data : GovData) :
    (calculate_esg_score env_data social_data gov_data).2.1 =
      (energy_score env_data.energy + water_score env_data.water +
        waste_score env_data.waste + recycling_score env_data.recycling) / 4 ∧
    (calculate_esg_score env_data social_data gov_data).2.2.1 =
      (turnover_score social_data.turnover + incident_score social_data.incidents +
        diversity_score social_data.diversity) / 3 ∧
    (calculate_esg_score env_data social_data gov_data).2.2.2 =
      (independence_score gov_data.independence + ethics_score gov_data.ethics) / 2 := by
  refine ⟨rfl, rfl, rfl⟩

/-- C7: every penalty-based sub-indicator is non-negative for every
non-negative raw input: the `max(0, ...)` floor applies. -/
theorem C7_penalty_indicators_nonneg (x : ℚ) (hx : 0 ≤ x) :
    0 ≤ energy_score x ∧ 0 ≤ water_score x ∧ 0 ≤ waste_score x ∧
    0 ≤ turnover_score x ∧ 0 ≤ incident_score x :=
  ⟨le_max_left _ _, le_max_left _ _, le_max_left _ _, le_max_left _ _, le_max_left _ _⟩

/-- Witness for C7 at the concrete non-negative input 42. -/
theorem C7_penalty_indicators_nonneg_witness :
    (0 : ℚ) ≤ 42 ∧ (0 ≤ energy_score 42 ∧ 0 ≤ water_score 42 ∧ 0 ≤ waste_score 42 ∧
      0 ≤ turnover_score 42 ∧ 0 ≤ incident_score 42) :=
  ⟨by norm_num, C7_penalty_indicators_nonneg 42 (by norm_num)⟩

/-- C8: the concrete scenario energy=50000, water=2500, waste=1000,
recycling=40, turnover=15, incidents=3, diversity=30, independence=50,
ethics=85 yields e=68.75, s=170/3 (≈56.67), g=67.5, overall=64.75; and the
all-zero environmental input with recycling=100 yields e=100. -/
theorem C8_concrete_scenarios :
    calculate_esg_score ⟨50000, 2500, 1000, 40⟩ ⟨15, 3, 30⟩ ⟨50, 85⟩ =
      (64.75, 68.75, 170 / 3, 67.5) ∧
    (calculate_esg_score ⟨0, 0, 0, 100⟩ ⟨15, 3, 30⟩ ⟨50, 85⟩).2.1 = 100 := by
  constructor <;> simp [calculate_esg_score, weights_E, weights_S, weights_G] <;> norm_num

/-- E rule message for threshold 70 (src/app.py line 195). -/
def eMsgHigh : String := "**High Impact:** Conduct a professional energy audit to identify efficiency opportunities."

/-- E rule message for threshold 80 (src/app.py line 196). -/
def eMsgMedium : String := "**Medium Impact:** Implement a company-wide switch to LED lighting and optimize HVAC systems."

/-- E rule message for threshold 60 (src/app.py line 197; the source string starts "Crital:**"). -/
def eMsgCritical : String := "Crital:** Develop a comprehensive waste reduction and recycling strategy."

/-- S rule message for threshold 70. -/
def sMsgHigh : String := "**High Impact:** Introduce an anonymous employee feedback system to understand turnover causes."

/-- S rule message for threshold 80. -/
def sMsgMedium : String := "**Medium Impact:** Implement diversity and inclusion training for all employees and management."

/-- S rule message for threshold 60. -/
def sMsgCritical : String := "**Critical:** Review safety protocols and conduct mandatory safety training sessions to reduce incidents."

/-- G rule message for threshold 75. -/
def gMsgHigh : String := "**High Impact:** Appoint an additional independent director to your board for objective oversight."

/-- G rule message for threshold 85. -/
def gMsgMedium : String := "**Medium Impact:** Regularly update and communicate your company\x27s ethics policy and training."

/-- G rule message for threshold 65. -/
def gMsgCritical : String := "**Critical:** Establish a clear whistleblower policy and ensure board accountability mechanisms are in place."

/-- E fallback praise message. -/
def eFallbackMsg : String := "Strong performance! Continue monitoring and explore new green technologies to stay ahead."

/-- S fallback praise message. -/
def sFallbackMsg : String := "Excellent metrics! Focus on maintaining this positive culture and fostering employee well-being."

/-- G fallback praise message. -/
def gFallbackMsg : String := "Solid governance. Stay updated with best practices and ensure robust internal controls."

/-- The E messages appended by the successive `if e_score < t` statements of
`get_recommendations`, in source order: thresholds 70, then 80, then 60. -/
def recsE (e_score : ℚ) : List String :=
  (if e_score < 70 then [eMsgHigh] else []) ++
  (if e_score < 80 then [eMsgMedium] else []) ++
  (if e_score < 60 then [eMsgCritical] else [])

/-- The S messages appended in source order: thresholds 70, then 80, then 60. -/
def recsS (s_score : ℚ) : List String :=
  (if s_score < 70 then [sMsgHigh] else []) ++
  (if s_score < 80 then [sMsgMedium] else []) ++
  (if s_score < 60 then [sMsgCritical] else [])

/-- The G messages appended in source order: thresholds 75, then 85, then 65. -/
def recsG (g_score : ℚ) : List String :=
  (if g_score < 75 then [gMsgHigh] else []) ++
  (if g_score < 85 then [gMsgMedium] else []) ++
  (if g_score < 65 then [gMsgCritical] else [])

/-- The final E list after `if not recs['E']: recs['E'].append(fallback)`. -/
def recsEFinal (e_score : ℚ) : List String :=
  if (recsE e_score).isEmpty then [eFallbackMsg] else recsE e_score

/-- The final S list after the fallback step. -/
def recsSFinal (s_score : ℚ) : List String :=
  if (recsS s_score).isEmpty then [sFallbackMsg] else recsS s_score

/-- The final G list after the fallback step. -/
def recsGFinal (g_score : ℚ) : List String :=
  if (recsG g_score).isEmpty then [gFallbackMsg] else recsG g_score

/-- The function `get_recommendations(e_score, s_score, g_score)` from src/app.py:
returns the E, S and G message lists. -/
def get_recommendations (e_score s_score g_score : ℚ) :
    List String × List String × List String :=
  (recsEFinal e_score, recsSFinal s_score, recsGFinal g_score)

/-- The E rule table in the order the source evaluates it. -/
def eRules : List (ℚ × String) := [(70, eMsgHigh), (80, eMsgMedium), (60, eMsgCritical)]

/-- The S rule table in the order the source evaluates it. -/
def sRules : List (ℚ × String) := [(70, sMsgHigh), (80, sMsgMedium), (60, sMsgCritical)]

/-- The G rule table in the order the source evaluates it. -/
def gRules : List (ℚ × String) := [(75, gMsgHigh), (85, gMsgMedium), (65, gMsgCritical)]

/-- The rules of a table that fire at a given score: exactly those whose
threshold is strictly above the score, kept in table order. -/
def firedRules (rules : List (ℚ × String)) (score : ℚ) : List (ℚ × String) :=
  rules.filter fun r => decide (score < r.1)

/-- Case analysis of the final E list by the score. -/
lemma recsEFinal_eq (e : ℚ) :
    recsEFinal e =
      if e < 60 then [eMsgHigh, eMsgMedium, eMsgCritical]
      else if e < 70 then [eMsgHigh, eMsgMedium]
      else if e < 80 then [eMsgMedium]
      else [eFallbackMsg] := by
  unfold recsEFinal recsE
  by_cases h3 : e < 60 <;> by_cases h1 : e < 70 <;> by_cases h2 : e < 80 <;>
    first
      | (exfalso; linarith)
      | simp [h1, h2, h3]

/-- Case analysis of the final S list by the score. -/
lemma recsSFinal_eq (s : ℚ) :
    recsSFinal s =
      if s < 60 then [sMsgHigh, sMsgMedium, sMsgCritical]
      else if s < 70 then [sMsgHigh, sMsgMedium]
      else if s < 80 then [sMsgMedium]
      else [sFallbackMsg] := by
  unfold recsSFinal recsS
  by_cases h3 : s < 60 <;> by_cases h1 : s < 70 <;> by_cases h2 : s < 80 <;>
    first
      | (exfalso; linarith)
      | simp [h1, h2, h3]

/-- Case analysis of the final G list by the score. -/
lemma recsGFinal_eq (g : ℚ) :
    recsGFinal g =
      if g < 65 then [gMsgHigh, gMsgMedium, gMsgCritical]
      else if g < 75 then [gMsgHigh, gMsgMedium]
      else if g < 85 then [gMsgMedium]
      else [gFallbackMsg] := by
  unfold recsGFinal recsG
  by_cases h3 : g < 65 <;> by_cases h1 : g < 75 <;> by_cases h2 : g < 85 <;>
    first
      | (exfalso; linarith)
      | simp [h1, h2, h3]

/-- Case analysis of the fired E rules by the score. -/
lemma firedRules_eRules_eq (e : ℚ) :
    firedRules eRules e =
      if e < 60 then eRules
      else if e < 70 then [(70, eMsgHigh), (80, eMsgMedium)]
      else if e < 80 then [(80, eMsgMedium)]
      else [] := by
  unfold firedRules eRules
  by_cases h3 : e < 60 <;> by_cases h1 : e < 70 <;> by_cases h2 : e < 80 <;>
    first
      | (exfalso; linarith)
      | simp [List.filter, h1, h2, h3]

/-- Case analysis of the fired S rules by the score. -/
lemma firedRules_sRules_eq (s : ℚ) :
    firedRules sRules s =
      if s < 60 then sRules
      else if s < 70 then [(70, sMsgHigh), (80, sMsgMedium)]
      else if s < 80 then [(80, sMsgMedium)]
      else [] := by
  unfold firedRules sRules
  by_cases h3 : s < 60 <;> by_cases h1 : s < 70 <;> by_cases h2 : s < 80 <;>
    first
      | (exfalso; linarith)
      | simp [List.filter, h1, h2, h3]

/-- Case analysis of the fired G rules by the score. -/
lemma firedRules_gRules_eq (g : ℚ) :
    firedRules gRules g =
      if g < 65 then gRules
      else if g < 75 then [(75, gMsgHigh), (85, gMsgMedium)]
      else if g < 85 then [(85, gMsgMedium)]
      else [] := by
  unfold firedRules gRules
  by_cases h3 : g < 65 <;> by_cases h1 : g < 75 <;> by_cases h2 : g < 85 <;>
    first
      | (exfalso; linarith)
      | simp [List.filter, h1, h2, h3]

/-- C3 counterexample: at category scores (50, 100, 100) all three E rules
fire, and the E output lists the messages in source order, whose thresholds
read 70, 80, 60 — not ascending. The claim that the output is ordered by
ascending threshold is therefore false. -/
theorem C3_counterexample_order_not_ascending :
    (get_recommendations 50 100 100).1 = [eMsgHigh, eMsgMedium, eMsgCritical] ∧
    (firedRules eRules 50).map Prod.fst = [70, 80, 60] ∧
    ¬ List.Sorted (· ≤ ·) ((firedRules eRules 50).map Prod.fst) := by
  refine ⟨?_, ?_, ?_⟩
  · show recsEFinal 50 = _
    rw [recsEFinal_eq]
    norm_num
  · rw [firedRules_eRules_eq]
    norm_num [eRules]
  · rw [firedRules_eRules_eq]
    norm_num [eRules, List.Sorted]

/-- C3 (amended): the rules are evaluated independently per category and
non-exclusively, a rule fires exactly when the category score is strictly
below its threshold, and the messages appear in the evaluation
order of the rule table of the source — thresholds 70, 80, 60 for E and S and 75, 85, 65 for G — which is
not ascending; the fallback is produced when no rule fired. -/
theorem C3_rules_fire_in_source_order (e s g : ℚ) :
    (get_recommendations e s g).1 =
      (if (firedRules eRules e).isEmpty then [eFallbackMsg]
       else (firedRules eRules e).map Prod.snd) ∧
    (get_recommendations e s g).2.1 =
      (if (firedRules sRules s).isEmpty then [sFallbackMsg]
       else (firedRules sRules s).map Prod.snd) ∧
    (get_recommendations e s g).2.2 =
      (if (firedRules gRules g).isEmpty then [gFallbackMsg]
       else (firedRules gRules g).map Prod.snd) := by
  refine ⟨?_, ?_, ?_⟩
  · show recsEFinal e = _
    rw [recsEFinal_eq, firedRules_eRules_eq]
    split_ifs <;> simp_all [eRules]
  · show recsSFinal s = _
    rw [recsSFinal_eq, firedRules_sRules_eq]
    split_ifs <;> simp_all [sRules]
  · show recsGFinal g = _
    rw [recsGFinal_eq, firedRules_gRules_eq]
    split_ifs <;> simp_all [gRules]

/-- C4: each category recommendation list is non-empty, and it equals
the single category-specific fallback message exactly when no rule of that
category fired. -/
theorem C4_nonempty_and_fallback_iff (e s g : ℚ) :
    (get_recommendations e s g).1 ≠ [] ∧
    (get_recommendations e s g).2.1 ≠ [] ∧
    (get_recommendations e s g).2.2 ≠ [] ∧
    ((get_recommendations e s g).1 = [eFallbackMsg] ↔ firedRules eRules e = []) ∧
    ((get_recommendations e s g).2.1 = [sFallbackMsg] ↔ firedRules sRules s = []) ∧
    ((get_recommendations e s g).2.2 = [gFallbackMsg] ↔ firedRules gRules g = []) := by
  refine ⟨?_, ?_, ?_, ?_, ?_, ?_⟩
  · show recsEFinal e ≠ []
    rw [recsEFinal_eq]
    split_ifs <;> simp
  · show recsSFinal s ≠ []
    rw [recsSFinal_eq]
    split_ifs <;> simp
  · show recsGFinal g ≠ []
    rw [recsGFinal_eq]
    split_ifs <;> simp
  · show recsEFinal e = [eFallbackMsg] ↔ _
    rw [recsEFinal_eq, firedRules_eRules_eq]
    split_ifs <;> simp [eRules] <;> decide
  · show recsSFinal s = [sFallbackMsg] ↔ _
    rw [recsSFinal_eq, firedRules_sRules_eq]
    split_ifs <;> simp [sRules] <;> decide
  · show recsGFinal g = [gFallbackMsg] ↔ _
    rw [recsGFinal_eq, firedRules_gRules_eq]
    split_ifs <;> simp [gRules] <;> decide

/-- A finance offer record of the `FINANCE_OPPORTUNITIES` catalog. -/
structure FinanceOffer where
  name : String
  type : String
  description : String
  minimum_esg_score : ℚ
  icon : String
  url : String
deriving DecidableEq

/-- Catalog entry with minimum score 0. -/
def greenStartGrant : FinanceOffer :=
  { name := "GreenStart Grant Program", type := "Grant",
    description := "A grant for businesses starting their sustainability journey. Covers up to 50% of the cost for an initial energy audit.",
    minimum_esg_score := 0, icon := "🌱",
    url := "https://www.sba.gov/funding-programs/grants" }

/-- Catalog entry with minimum score 60. -/
def ecoEfficiencyLoan : FinanceOffer :=
  { name := "Eco-Efficiency Business Loan", type := "Loan",
    description := "Low-interest loans for SMEs investing in energy-efficient equipment or renewable energy installations.",
    minimum_esg_score := 60, icon := "💡",
    url := "https://www.bankofamerica.com/smallbusiness/business-financing/" }

/-- Catalog entry with minimum score 75. -/
def supplyChainFund : FinanceOffer :=
  { name := "Sustainable Supply Chain Fund", type := "Venture Capital",
    description := "Equity investment for companies demonstrating strong ESG performance and a commitment to a sustainable supply chain.",
    minimum_esg_score := 75, icon := "🤝",
    url := "https://www.blackrock.com/corporate/sustainability" }

/-- Catalog entry with minimum score 80. -/
def circularEconomyFund : FinanceOffer :=
  { name := "Circular Economy Innovators Fund", type := "Venture Capital",
    description := "Seed funding for businesses pioneering models in waste reduction, recycling, and resource circularity.",
    minimum_esg_score := 80, icon := "♻️",
    url := "https://www.closedlooppartners.com/" }

/-- Catalog entry with minimum score 90. -/
def impactInvestorsAlliance : FinanceOffer :=
  { name := "Impact Investors Alliance - Premier Partner", type := "Private Equity",
    description := "For top-tier ESG performers. Provides significant growth capital and access to a global network of sustainable businesses.",
    minimum_esg_score := 90, icon := "🏆",
    url := "https://thegiin.org/" }

/-- The static `FINANCE_OPPORTUNITIES` catalog from src/app.py, in source
order. -/
def FINANCE_OPPORTUNITIES : List FinanceOffer :=
  [greenStartGrant, ecoEfficiencyLoan, supplyChainFund, circularEconomyFund,
   impactInvestorsAlliance]

/-- The function `get_financial_opportunities(esg_score)` from src/app.py: the list
comprehension keeping offers whose `minimum_esg_score` field is at most `esg_score`. -/
def get_financial_opportunities (esg_score : ℚ) : List FinanceOffer :=
  FINANCE_OPPORTUNITIES.filter fun opp => decide (esg_score ≥ opp.minimum_esg_score)

/-- C5: the eligibility matcher returns exactly the offers of the static
five-offer catalog whose minimum score is at most the overall score,
preserving catalog order (minimum scores 0, 60, 75, 80, 90 ascending);
score 100 unlocks all five offers and score 0 exactly the minimum-0 offer. -/
theorem C5_eligibility_exact_filter :
    (∀ q : ℚ, get_financial_opportunities q =
      FINANCE_OPPORTUNITIES.filter fun o => decide (o.minimum_esg_score ≤ q)) ∧
    (∀ q : ℚ, (get_financial_opportunities q).Sublist FINANCE_OPPORTUNITIES) ∧
    FINANCE_OPPORTUNITIES.map FinanceOffer.minimum_esg_score = [0, 60, 75, 80, 90] ∧
    get_financial_opportunities 100 = FINANCE_OPPORTUNITIES ∧
    get_financial_opportunities 0 = [greenStartGrant] := by
  refine ⟨fun q => rfl, fun q => List.filter_sublist _, ?_, ?_, ?_⟩
  · rfl
  · decide
  · decide

/-- C6: the eligibility matcher is monotonic — every offer unlocked at the
lower score is also unlocked at any higher score. -/
theorem C6_eligibility_monotone (score1 score2 : ℚ) (h : score2 ≤ score1) :
    ∀ o ∈ get_financial_opportunities score2, o ∈ get_financial_opportunities score1 := by
  intro o ho
  simp only [get_financial_opportunities, List.mem_filter, decide_eq_true_eq,
    ge_iff_le] at ho ⊢
  exact ⟨ho.1, le_trans ho.2 h⟩

/-- Witness for C6 at scores 100 ≥ 0 and the minimum-0 catalog offer. -/
theorem C6_eligibility_monotone_witness :
    (0 : ℚ) ≤ 100 ∧ greenStartGrant ∈ get_financial_opportunities 0 ∧
      greenStartGrant ∈ get_financial_opportunities 100 :=
  ⟨by norm_num, by decide,
    C6_eligibility_monotone 100 0 (by norm_num) greenStartGrant (by decide)⟩

/-- The nine metric keys the CSV template lists (`get_template_csv`). -/
def requiredMetricKeys : List String :=
  ["energy_consumption_kwh", "water_usage_m3", "waste_generation_kg",
   "recycling_rate_pct", "employee_turnover_pct", "safety_incidents_count",
   "management_diversity_pct", "board_independence_pct", "ethics_training_pct"]

/-- The lookup `data_dict.get(key, 0)` on the dictionary pandas builds from the CSV
rows: for duplicate metric names the last row wins, and a missing key
yields the default 0. -/
def csvGet (rows : List (String × ℚ)) (key : String) : ℚ :=
  match rows.reverse.find? (fun r => r.1 == key) with
  | some r => r.2
  | none => 0

/-- The CSV upload branch of src/app.py (lines 689-705): builds the env,
social and gov metric dicts from the uploaded rows with `.get(key, 0)`
defaults. -/
def csv_ingest (rows : List (String × ℚ)) : EnvData × SocialData × GovData :=
  (⟨csvGet rows "energy_consumption_kwh", csvGet rows "water_usage_m3",
    csvGet rows "waste_generation_kg", csvGet rows "recycling_rate_pct"⟩,
   ⟨csvGet rows "employee_turnover_pct", csvGet rows "safety_incidents_count",
    csvGet rows "management_diversity_pct"⟩,
   ⟨csvGet rows "board_independence_pct", csvGet rows "ethics_training_pct"⟩)

/-- The CSV upload branch then immediately computes the score from the
ingested data (line 709 of src/app.py), with no missing-key check. -/
def csv_upload_score (rows : List (String × ℚ)) : ℚ × ℚ × ℚ × ℚ :=
  calculate_esg_score (csv_ingest rows).1 (csv_ingest rows).2.1 (csv_ingest rows).2.2

/-- The template CSV rows with the energy row removed: a CSV missing one
required metric key. -/
def sampleCsvMissingEnergy : List (String × ℚ) :=
  [("water_usage_m3", 2500), ("waste_generation_kg", 1000),
   ("recycling_rate_pct", 40), ("employee_turnover_pct", 15),
   ("safety_incidents_count", 3), ("management_diversity_pct", 30),
   ("board_independence_pct", 50), ("ethics_training_pct", 85)]

/-- C9: when the uploaded CSV has no row for a required metric key, the
ingestion substitutes 0 for that metric and the branch still computes a
score from the defaulted data — no error is raised for the missing key. -/
theorem C9_missing_key_defaults_to_zero (rows : List (String × ℚ)) (key : String)
    (hkey : key ∈ requiredMetricKeys) (hmissing : ∀ r ∈ rows, r.1 ≠ key) :
    csvGet rows key = 0 ∧
    csv_upload_score rows =
      calculate_esg_score (csv_ingest rows).1 (csv_ingest rows).2.1
        (csv_ingest rows).2.2 := by
  refine ⟨?_, rfl⟩
  unfold csvGet
  have h : rows.reverse.find? (fun r => r.1 == key) = none := by
    rw [List.find?_eq_none]
    intro r hr
    simpa using hmissing r (List.mem_reverse.mp hr)
  rw [h]

/-- Witness for C9: the template CSV without its energy row ingests
energy = 0 and still produces a score. -/
theorem C9_missing_key_defaults_to_zero_witness :
    csvGet sampleCsvMissingEnergy "energy_consumption_kwh" = 0 ∧
    csv_upload_score sampleCsvMissingEnergy =
      calculate_esg_score (csv_ingest sampleCsvMissingEnergy).1
        (csv_ingest sampleCsvMissingEnergy).2.1
        (csv_ingest sampleCsvMissingEnergy).2.2 :=
  C9_missing_key_defaults_to_zero sampleCsvMissingEnergy "energy_consumption_kwh"
    (by decide) (by decide)

/-- A penalty indicator `max 0 (100 - y)` lies in [0, 100] when the raw
penalty `y` is non-negative. -/
lemma penalty_bounds (y : ℚ) (hy : 0 ≤ y) :
    0 ≤ max 0 (100 - y) ∧ max 0 (100 - y) ≤ 100 :=
  ⟨le_max_left _ _, max_le (by norm_num) (by linarith)⟩

/-- C10: when the percentage inputs lie in [0,100] and the raw consumption
and incident inputs are non-negative, each category score and the overall
score lies in [0,100]. -/
theorem C10_scores_bounded (env_data : EnvData) (social_data : SocialData)
    (gov_data : GovData)
    (henergy : 0 ≤ env_data.energy) (hwater : 0 ≤ env_data.water)
    (hwaste : 0 ≤ env_data.waste)
    (hrec0 : 0 ≤ env_data.recycling) (hrec1 : env_data.recycling ≤ 100)
    (hturn : 0 ≤ social_data.turnover) (hinc : 0 ≤ social_data.incidents)
    (hdiv0 : 0 ≤ social_data.diversity) (hdiv1 : social_data.diversity ≤ 100)
    (hind0 : 0 ≤ gov_data.independence) (hind1 : gov_data.independence ≤ 100)
    (heth0 : 0 ≤ gov_data.ethics) (heth1 : gov_data.ethics ≤ 100) :
    (0 ≤ (calculate_esg_score env_data social_data gov_data).2.1 ∧
      (calculate_esg_score env_data social_data gov_data).2.1 ≤ 100) ∧
    (0 ≤ (calculate_esg_score env_data social_data gov_data).2.2.1 ∧
      (calculate_esg_score env_data social_data gov_data).2.2.1 ≤ 100) ∧
    (0 ≤ (calculate_esg_score env_data social_data gov_data).2.2.2 ∧
      (calculate_esg_score env_data social_data gov_data).2.2.2 ≤ 100) ∧
    (0 ≤ (calculate_esg_score env_data social_data gov_data).1 ∧
      (calculate_esg_score env_data social_data gov_data).1 ≤ 100) := by
  have he := penalty_bounds (env_data.energy / 1000) (by positivity)
  have hw := penalty_bounds (env_data.water / 500) (by positivity)
  have hws := penalty_bounds (env_data.waste / 100) (by positivity)
  have ht := penalty_bounds (social_data.turnover * 2) (by positivity)
  have hi := penalty_bounds (social_data.incidents * 10) (by positivity)
  simp only [calculate_esg_score, weights_E, weights_S, weights_G]
  refine ⟨⟨?_, ?_⟩, ⟨?_, ?_⟩, ⟨?_, ?_⟩, ?_, ?_⟩ <;>
    linarith [he.1, he.2, hw.1, hw.2, hws.1, hws.2, ht.1, ht.2, hi.1, hi.2]

/-- Witness for C10 at the concrete input energy=1000, water=500, waste=100,
recycling=50, turnover=10, incidents=2, diversity=50, independence=50,
ethics=50. -/
theorem C10_scores_bounded_witness :
    (0 ≤ (calculate_esg_score ⟨1000, 500, 100, 50⟩ ⟨10, 2, 50⟩ ⟨50, 50⟩).2.1 ∧
      (calculate_esg_score ⟨1000, 500, 100, 50⟩ ⟨10, 2, 50⟩ ⟨50, 50⟩).2.1 ≤ 100) ∧
    (0 ≤ (calculate_esg_score ⟨1000, 500, 100, 50⟩ ⟨10, 2, 50⟩ ⟨50, 50⟩).2.2.1 ∧
      (calculate_esg_score ⟨1000, 500, 100, 50⟩ ⟨10, 2, 50⟩ ⟨50, 50⟩).2.2.1 ≤ 100) ∧
    (0 ≤ (calculate_esg_score ⟨1000, 500, 100, 50⟩ ⟨10, 2, 50⟩ ⟨50, 50⟩).2.2.2 ∧
      (calculate_esg_score ⟨1000, 500, 100, 50⟩ ⟨10, 2, 50⟩ ⟨50, 50⟩).2.2.2 ≤ 100) ∧
    (0 ≤ (calculate_esg_score ⟨1000, 500, 100, 50⟩ ⟨10, 2, 50⟩ ⟨50, 50⟩).1 ∧
      (calculate_esg_score ⟨1000, 500, 100, 50⟩ ⟨10, 2, 50⟩ ⟨50, 50⟩).1 ≤ 100) :=
  C10_scores_bounded ⟨1000, 500, 100, 50⟩ ⟨10, 2, 50⟩ ⟨50, 50⟩
    (by norm_num) (by norm_num) (by norm_num) (by norm_num) (by norm_num)
    (by norm_num) (by norm_num) (by norm_num) (by norm_num) (by norm_num)
    (by norm_num) (by norm_num) (by norm_num)
